import Mathlib

/-!
Shallow embedding of the itinerary-planner core of the nomads-compass-api
repository (`app/planner.py`, `app/sponsorship.py`, `app/schemas.py`),
together with proofs of the specification claims about it.

Modelling conventions:
* Python dicts with `.get(key, default)` access are modelled as total
  functions from `String` with the default built in: `quota_exceeded` as
  `String → Bool` (default `False`), `error_count` as `String → Nat`
  (default `0`), `last_check` as `String → Option Nat` (default `None`).
* `datetime.now()` values are opaque `Nat` timestamps passed in as
  parameters wherever the source reads the clock.
* The pydantic models in `app/schemas.py` carry exactly the fields they
  declare; extra keyword arguments passed at construction sites (such as
  `note`, `stops`, `booking_link` on `FlightData`, or `leg_number` on
  `LegPlan`) are silently dropped by pydantic and therefore do not appear
  in the embedded structures (the source acknowledges this with its
  "FIX 3: Safely access the .note attribute" workaround).
* Awaited external calls (flight search, hotel search, visa lookup by the
  persistence layer) are modelled by passing their outcome — a value or
  the raised exception's message — as an explicit argument.
* Python floats in the data literals are exact decimals; they are
  embedded as `Rat`.
-/

namespace NomadsCompass

/-- Schema `app/schemas.py` `FlightData`: only the six declared fields; pydantic
drops any extra constructor kwargs (`stops`, `booking_link`, `note`). -/
structure FlightData where
  airline : String
  flight_number : String
  departure_time : String
  arrival_time : String
  price : Rat
  duration : String
deriving DecidableEq, Repr

/-- Schema `app/schemas.py` `HotelData`: only the four declared fields; pydantic
drops extra kwargs (`amenities`, `image_url`, `booking_link`, `note`). -/
structure HotelData where
  name : String
  price_per_night : Rat
  rating : Rat
  location : String
deriving DecidableEq, Repr

/-- Schema `app/schemas.py` `VisaRequirement`. -/
structure VisaRequirement where
  id : Int
  country_id : Int
  document_name : String
  description : Option String
  is_mandatory : Bool
deriving DecidableEq, Repr

/-- Schema `app/schemas.py` `Country` (the visa-information record). -/
structure Country where
  id : Int
  name : String
  code : String
  visa_policy : String
  processing_time_days : Int
  requirements : List VisaRequirement
deriving DecidableEq, Repr

/-- Schema `app/schemas.py` `Leg`; `travel_date` is carried as its formatted
string (the planner always formats it with `strftime`/`str` before use). -/
structure Leg where
  id : Int
  itinerary_id : Int
  origin_airport : String
  destination_airport : String
  travel_date : String
deriving DecidableEq, Repr

/-- Schema `app/schemas.py` `Itinerary`. -/
structure Itinerary where
  id : Int
  owner_id : Int
  name : String
  legs : List Leg
deriving DecidableEq, Repr

/-- Model `app/models.py` `User` (the fields the planner and sponsorship code
read); `instagram_handle` is a nullable string column. -/
structure User where
  id : Int
  email : String
  instagram_handle : Option String
deriving DecidableEq, Repr

/-- Schema `app/schemas.py` `TripPlan`. -/
structure TripPlan where
  visa_information : Option Country
  flight_options : List FlightData
  hotel_options : List HotelData
deriving DecidableEq, Repr

/-- Schema `app/schemas.py` `LegPlan`: only the two declared fields (the
`leg_number=i+1` kwarg passed in `planner.py` is dropped by pydantic). -/
structure LegPlan where
  leg_details : Leg
  trip_plan : TripPlan
deriving DecidableEq, Repr

/-- Schema `app/sponsorship.py` / `app/schemas.py` `SponsorshipOffer`. -/
structure SponsorshipOffer where
  brand_name : String
  offer_description : String
  destination_specific : Bool
deriving DecidableEq, Repr

/-- Schema `app/schemas.py` `FullItineraryPlan`. -/
structure FullItineraryPlan where
  itinerary_details : Itinerary
  leg_plans : List LegPlan
  sponsorship_offers : List SponsorshipOffer
  plan_content : String
deriving DecidableEq, Repr

/-- Embedding of `app/planner.py` `APIQuotaHandler` state: three dicts keyed by service
name, embedded as total functions with the `.get` defaults built in. -/
structure APIQuotaHandler where
  quota_exceeded : String → Bool
  error_count : String → Nat
  last_check : String → Option Nat

/-- The freshly constructed handler (`APIQuotaHandler.__init__`): empty
dicts, i.e. every service at the defaults. -/
def initial_handler : APIQuotaHandler :=
  ⟨fun _ => false, fun _ => 0, fun _ => none⟩

/-- Embedding of `APIQuotaHandler.is_quota_exceeded`:
`return self.quota_exceeded.get(service, False)`. -/
def is_quota_exceeded (h : APIQuotaHandler) (service : String) : Bool :=
  h.quota_exceeded service

/-- Embedding of `APIQuotaHandler.set_quota_exceeded`: sets the flag and records
`datetime.now()` (the `now` parameter) for the service. -/
def set_quota_exceeded (h : APIQuotaHandler) (service : String) (now : Nat) :
    APIQuotaHandler :=
  { h with
    quota_exceeded := fun s => if s = service then true else h.quota_exceeded s
    last_check := fun s => if s = service then some now else h.last_check s }

/-- Embedding of `APIQuotaHandler.increment_error`: bumps the counter and, once it
reaches 3, calls `set_quota_exceeded`. -/
def increment_error (h : APIQuotaHandler) (service : String) (now : Nat) :
    APIQuotaHandler :=
  let count := h.error_count service + 1
  let h1 : APIQuotaHandler :=
    { h with error_count := fun s => if s = service then count else h.error_count s }
  if 3 ≤ count then set_quota_exceeded h1 service now else h1

/-- The in-line success path of the fetch helpers
(`quota_handler.error_count[service] = 0`, `planner.py` lines 153/187):
zeroes the counter and touches nothing else. -/
def reset_error_count (h : APIQuotaHandler) (service : String) : APIQuotaHandler :=
  { h with error_count := fun s => if s = service then 0 else h.error_count s }

/-- Embedding of `APIQuotaHandler.reset_quota_status`: clears flag, counter and
timestamp for one service. -/
def reset_quota_status (h : APIQuotaHandler) (service : String) : APIQuotaHandler :=
  { quota_exceeded := fun s => if s = service then false else h.quota_exceeded s
    error_count := fun s => if s = service then 0 else h.error_count s
    last_check := fun s => if s = service then none else h.last_check s }

/-- Embedding of `planner.py` `reset_all_quota_status`: resets exactly the services
`"flights"` and `"hotels"`. -/
def reset_all_quota_status (h : APIQuotaHandler) : APIQuotaHandler :=
  ["flights", "hotels"].foldl reset_quota_status h

/-- The quota-tracker mutations that occur outside an explicit reset:
a generic counted error (`increment_error`), a conclusive quota signal
(`set_quota_exceeded`), and a successful live call
(`error_count[service] = 0`). -/
inductive QuotaOp where
  | record_error (service : String) (now : Nat)
  | record_quota_signal (service : String) (now : Nat)
  | record_success (service : String)
deriving DecidableEq, Repr

/-- Apply one non-reset quota-tracker operation. -/
def applyQuotaOp (h : APIQuotaHandler) : QuotaOp → APIQuotaHandler
  | .record_error s now => increment_error h s now
  | .record_quota_signal s now => set_quota_exceeded h s now
  | .record_success s => reset_error_count h s

/-- Run a sequence of non-reset quota-tracker operations. -/
def runQuotaOps (h : APIQuotaHandler) (ops : List QuotaOp) : APIQuotaHandler :=
  ops.foldl applyQuotaOp h

/-- Python's `needle in haystack` substring test, on character lists. -/
def containsSub (needle : List Char) : List Char → Bool
  | [] => needle.isEmpty
  | c :: t => needle.isPrefixOf (c :: t) || containsSub needle t

/-- Python's `needle in haystack` substring test on strings. -/
def strContains (needle haystack : String) : Bool :=
  containsSub needle.data haystack.data

/-- Python's `str.lower()` (the error messages at issue are ASCII). -/
def pyLower (s : String) : String := ⟨s.data.map Char.toLower⟩

/-- Python's `str.upper()`. -/
def pyUpper (s : String) : String := ⟨s.data.map Char.toUpper⟩

/-- Python truthiness of an `Optional[str]`: `None` and `""` are falsy. -/
def py_truthy_str : Option String → Bool
  | none => false
  | some s => !s.isEmpty

/-- The quota/rate-limit keywords of `fetch_flights_with_fallback`
(`planner.py` line 160). -/
def flight_quota_keywords : List String :=
  ["429", "quota", "rate limit", "exceeded", "limit"]

/-- The quota/rate-limit keywords of `fetch_hotels_with_fallback`
(`planner.py` line 197); note the extra `"400"`. -/
def hotel_quota_keywords : List String :=
  ["429", "quota", "rate limit", "exceeded", "limit", "400"]

/-- Embedding of `any(keyword in error_str for keyword in keywords)` where
`error_str = str(e).lower()`. -/
def is_quota_error (keywords : List String) (msg : String) : Bool :=
  keywords.any fun kw => strContains kw (pyLower msg)

/-- Value half of the `AIRPORT_TO_CITY_INFO` table. -/
structure CityInfo where
  city : String
  country_code : String
deriving DecidableEq, Repr

/-- Embedding of `planner.py` `AIRPORT_TO_CITY_INFO`. -/
def AIRPORT_TO_CITY_INFO : List (String × CityInfo) :=
  [("BKK", ⟨"Bangkok", "THA"⟩), ("SIN", ⟨"Singapore", "SGP"⟩),
   ("KUL", ⟨"Kuala Lumpur", "MYS"⟩), ("HAN", ⟨"Hanoi", "VNM"⟩),
   ("SGN", ⟨"Ho Chi Minh City", "VNM"⟩), ("LHR", ⟨"London", "GBR"⟩),
   ("JFK", ⟨"New York", "USA"⟩), ("LAX", ⟨"Los Angeles", "USA"⟩),
   ("CDG", ⟨"Paris", "FRA"⟩), ("NRT", ⟨"Tokyo", "JPN"⟩),
   ("ICN", ⟨"Seoul", "KOR"⟩), ("HYD", ⟨"Hyderabad", "IND"⟩),
   ("DEL", ⟨"Delhi", "IND"⟩), ("BOM", ⟨"Mumbai", "IND"⟩),
   ("BLR", ⟨"Bangalore", "IND"⟩), ("MAA", ⟨"Chennai", "IND"⟩),
   ("CCU", ⟨"Kolkata", "IND"⟩), ("GOI", ⟨"Goa", "IND"⟩),
   ("DXB", ⟨"Dubai", "ARE"⟩), ("DOH", ⟨"Doha", "QAT"⟩),
   ("SYD", ⟨"Sydney", "AUS"⟩), ("MEL", ⟨"Melbourne", "AUS"⟩)]

/-- Embedding of `AIRPORT_TO_CITY_INFO.get(code)` (dict lookup without default). -/
def lookup_city (code : String) : Option CityInfo :=
  (AIRPORT_TO_CITY_INFO.find? fun p => p.1 = code).map Prod.snd

/-- Embedding of `APIQuotaHandler.get_mock_flight_data`: the result is a fixed 3-entry
list (the `city_info` the source computes from the destination is unused);
the `stops`/`booking_link`/`note` kwargs are dropped by the `FlightData`
schema. Parameters kept to mirror the source signature. -/
def get_mock_flight_data (_origin _destination : String) : List FlightData :=
  [⟨"Air India", "AI101", "08:30", "14:45", 18500, "6h 15m"⟩,
   ⟨"IndiGo", "6E205", "11:20", "17:55", 15750, "6h 35m"⟩,
   ⟨"Singapore Airlines", "SQ407", "15:45", "22:10", 22300, "6h 25m"⟩]

/-- Embedding of `APIQuotaHandler.get_mock_hotel_data`: three entries parameterised by
the location string; extra kwargs dropped by the `HotelData` schema. -/
def get_mock_hotel_data (location : String) : List HotelData :=
  [⟨"Grand " ++ location ++ " Hotel", 4500, 4.5, "City Center"⟩,
   ⟨"Luxury Suites " ++ location, 6800, 4.8, "Business District"⟩,
   ⟨"Budget Inn " ++ location, 2200, 3.8, "Downtown"⟩]

/-- Result of one fetch-with-fallback step: the updated quota state, the
returned option list, and whether the live capability was invoked at all
(false exactly when the quota short-circuit at the top of the function
returned mock data without entering the `try` block). -/
structure FetchResult (α : Type) where
  state : APIQuotaHandler
  data : List α
  live_called : Bool

/-- Embedding of `planner.py` `fetch_flights_with_fallback`. The awaited
`flights.search_flights_on_route` call is an external capability; its
outcome (result list, or the raised exception's message) is the `live`
argument, and `now` stands for `datetime.now()` at the failure-handling
point. -/
def fetch_flights_with_fallback (h : APIQuotaHandler) (origin destination : String)
    (live : Except String (List FlightData)) (now : Nat) : FetchResult FlightData :=
  if is_quota_exceeded h "flights" then
    ⟨h, get_mock_flight_data origin destination, false⟩
  else
    match live with
    | .ok flight_options => ⟨reset_error_count h "flights", flight_options, true⟩
    | .error e =>
      let h1 :=
        if is_quota_error flight_quota_keywords e then set_quota_exceeded h "flights" now
        else increment_error h "flights" now
      ⟨h1, get_mock_flight_data origin destination, true⟩

/-- Combined outcome of the two awaited hotel-capability calls inside the
`try` block of `fetch_hotels_with_fallback`: an exception from either
call, a falsy location id (`None` or `""`), or a successful search. -/
inductive HotelLive where
  | error (msg : String)
  | no_location
  | ok (hotel_options : List HotelData)
deriving DecidableEq, Repr

/-- Embedding of `planner.py` `fetch_hotels_with_fallback`. -/
def fetch_hotels_with_fallback (h : APIQuotaHandler) (city_name : String)
    (live : HotelLive) (now : Nat) : FetchResult HotelData :=
  if is_quota_exceeded h "hotels" then
    ⟨h, get_mock_hotel_data city_name, false⟩
  else
    match live with
    | .ok hotel_options => ⟨reset_error_count h "hotels", hotel_options, true⟩
    | .no_location => ⟨h, get_mock_hotel_data city_name, true⟩
    | .error e =>
      let h1 :=
        if is_quota_error hotel_quota_keywords e then set_quota_exceeded h "hotels" now
        else increment_error h "hotels" now
      ⟨h1, get_mock_hotel_data city_name, true⟩

/-- The single substitute flight entry returned for an unknown destination
(`create_trip_plan`, `planner.py` lines 219-227); the `note` kwarg is
dropped by the schema, the tag survives in `airline`/`flight_number`. -/
def route_unknown_flight : FlightData :=
  ⟨"Unknown Route", "N/A", "N/A", "N/A", 0, "N/A"⟩

/-- The single substitute hotel entry returned for an unknown destination
(`create_trip_plan`, `planner.py` lines 228-234). -/
def route_unknown_hotel : HotelData :=
  ⟨"Hotel information not available", 0, 0, "Unknown"⟩

/-- The short-circuit `TripPlan` for an unknown destination airport. -/
def route_unknown_plan : TripPlan :=
  ⟨none, [route_unknown_flight], [route_unknown_hotel]⟩

/-- Result of `create_trip_plan`: final quota state, the plan, and the
two live-invocation indicators from the fetch steps (false when the
corresponding fetch never ran or was short-circuited). -/
structure TripPlanResult where
  state : APIQuotaHandler
  plan : TripPlan
  flight_live_called : Bool
  hotel_live_called : Bool

/-- Embedding of `planner.py` `create_trip_plan`. External outcomes passed in:
`visa` is the `async_crud.get_country_by_code` outcome (a lookup result
or a raised exception's message, the latter caught and ignored), `flight_live`
and `hotel_live` are the capability outcomes of the two fetch steps, and
`now_f`/`now_h` the clock readings at their respective failure handlers. -/
def create_trip_plan (h : APIQuotaHandler) (origin_airport dest_airport : String)
    (visa : Except String (Option Country)) (flight_live : Except String (List FlightData))
    (hotel_live : HotelLive) (now_f now_h : Nat) : TripPlanResult :=
  match lookup_city (pyUpper dest_airport) with
  | none => ⟨h, route_unknown_plan, false, false⟩
  | some city_info =>
    let visa_info : Option Country :=
      if city_info.country_code = "" then none
      else match visa with
        | .ok v => v
        | .error _ => none
    let fr := fetch_flights_with_fallback h origin_airport dest_airport flight_live now_f
    let hr := fetch_hotels_with_fallback fr.state city_info.city hotel_live now_h
    ⟨hr.state, ⟨visa_info, fr.data, hr.data⟩, fr.live_called, hr.live_called⟩

/-- Embedding of `app/sponsorship.py` `AVAILABLE_OFFERS[0]`. -/
def skybags_offer : SponsorshipOffer :=
  ⟨"SkyBags", "15% discount on all travel luggage.", false⟩

/-- Embedding of `app/sponsorship.py` `AVAILABLE_OFFERS[1]`. -/
def nomad_apparel_offer : SponsorshipOffer :=
  ⟨"Nomad Apparel", "Get a free travel shirt with any purchase over ₹2000.", false⟩

/-- Embedding of `app/sponsorship.py` `AVAILABLE_OFFERS[2]` (destination-specific). -/
def gopro_offer : SponsorshipOffer :=
  ⟨"GoPro India",
   "Content Creator Program: Pitch a travel video concept for a chance to get a free camera.",
   true⟩

/-- Embedding of `app/sponsorship.py` `AVAILABLE_OFFERS`. -/
def AVAILABLE_OFFERS : List SponsorshipOffer :=
  [skybags_offer, nomad_apparel_offer, gopro_offer]

/-- The body of the per-leg loop of `get_sponsorship_offers`: on a leg to
`"BKK"`, append the first catalog offer named `"GoPro India"` unless one is
already present (`next(...)` cannot raise here because the catalog always
holds that offer; `Option.toList` of the `find?` reflects that). -/
def sponsorship_leg_step (offers : List SponsorshipOffer) (leg : Leg) :
    List SponsorshipOffer :=
  if leg.destination_airport = "BKK" then
    if offers.any (fun o => o.brand_name = "GoPro India") then offers
    else offers ++ (AVAILABLE_OFFERS.find? fun o => o.brand_name = "GoPro India").toList
  else offers

/-- Embedding of `app/sponsorship.py` `get_sponsorship_offers`: eligibility is Python
truthiness of `user.instagram_handle`; eligible users get every
non-destination-specific catalog offer, plus the GoPro offer once if some
leg targets `"BKK"`. -/
def get_sponsorship_offers (user : User) (itinerary : Itinerary) :
    List SponsorshipOffer :=
  if py_truthy_str user.instagram_handle then
    itinerary.legs.foldl sponsorship_leg_step
      (AVAILABLE_OFFERS.filter fun o => !o.destination_specific)
  else []

/-- The substitute `TripPlan` assembled in `create_full_itinerary_plan`
when a leg's gathered result is an exception (`planner.py` lines 316-334);
`note` kwargs again dropped by the schemas. -/
def fallback_error_plan : TripPlan :=
  ⟨none, [⟨"Error", "N/A", "N/A", "N/A", 0, "N/A"⟩],
   [⟨"Error fetching hotels", 0, 0, "Unknown"⟩]⟩

/-- The exception-replacement pass over `asyncio.gather`'s results
(`planner.py` lines 310-337): an exception becomes `fallback_error_plan`,
a value is kept. -/
def resolve_leg_result : Except String TripPlan → TripPlan
  | .ok plan => plan
  | .error _ => fallback_error_plan

/-- Embedding of `planner.py` `create_full_itinerary_plan`. `render` abstracts
`generate_enhanced_plan_content` (pure string rendering, no claim touches
its output); `task_result i` is the value `asyncio.gather(...,
return_exceptions=True)` delivers for the `i`-th leg's `create_trip_plan`
task — one outcome per task, indexed by task order, irrespective of
completion order, which is exactly `gather`'s contract. The sponsorship
computation is the pure `get_sponsorship_offers` (its `try` never fires). -/
def create_full_itinerary_plan
    (render : Itinerary → List LegPlan → List SponsorshipOffer → String)
    (itinerary : Itinerary) (user : User)
    (task_result : Nat → Except String TripPlan) : FullItineraryPlan :=
  if itinerary.legs.isEmpty then
    ⟨itinerary, [], [],
     "❌ No travel legs found in this itinerary. Please add legs to generate a plan."⟩
  else
    let sponsorship_deals := get_sponsorship_offers user itinerary
    let trip_plan_results := (List.range itinerary.legs.length).map task_result
    let valid_trip_plans := trip_plan_results.map resolve_leg_result
    let leg_plans :=
      (itinerary.legs.zip valid_trip_plans).map fun p => LegPlan.mk p.1 p.2
    ⟨itinerary, leg_plans, sponsorship_deals,
     render itinerary leg_plans sponsorship_deals⟩

/-! ## Helper lemmas -/

/-- No non-reset operation ever clears a set substituting flag. -/
lemma applyQuotaOp_preserves_flag (h : APIQuotaHandler) (s : String) (op : QuotaOp)
    (hs : h.quota_exceeded s = true) : (applyQuotaOp h op).quota_exceeded s = true := by
  cases op with
  | record_error s' now =>
    simp only [applyQuotaOp, increment_error]
    split
    · simp only [set_quota_exceeded]
      by_cases hx : s = s' <;> simp [hx, hs]
    · simpa using hs
  | record_quota_signal s' now =>
    simp only [applyQuotaOp, set_quota_exceeded]
    by_cases hx : s = s' <;> simp [hx, hs]
  | record_success s' =>
    simpa [applyQuotaOp, reset_error_count] using hs

/-- Flag preservation extended over any sequence of non-reset operations. -/
lemma runQuotaOps_preserves_flag (s : String) :
    ∀ (ops : List QuotaOp) (h : APIQuotaHandler), h.quota_exceeded s = true →
      (runQuotaOps h ops).quota_exceeded s = true := by
  intro ops
  induction ops with
  | nil => intro h hs; simpa [runQuotaOps] using hs
  | cons op t ih =>
    intro h hs
    have hstep := applyQuotaOp_preserves_flag h s op hs
    simpa [runQuotaOps] using ih (applyQuotaOp h op) hstep

/-! ## Claim theorems: quota tracker -/

/-- C2: from a fresh counter and a clear flag, the third `increment_error`
(and not the second) trips the substituting flag; a single
`set_quota_exceeded` trips it immediately from any prior state. -/
theorem error_threshold_trips_breaker (h h' : APIQuotaHandler) (s : String)
    (t1 t2 t3 now : Nat) (hflag : is_quota_exceeded h s = false)
    (hcount : h.error_count s = 0) :
    is_quota_exceeded (increment_error (increment_error h s t1) s t2) s = false ∧
    is_quota_exceeded
      (increment_error (increment_error (increment_error h s t1) s t2) s t3) s = true ∧
    is_quota_exceeded (set_quota_exceeded h' s now) s = true := by
  simp only [is_quota_exceeded] at hflag ⊢
  refine ⟨?_, ?_, ?_⟩
  · simp [increment_error, hcount, hflag]
  · simp [increment_error, set_quota_exceeded, hcount, hflag]
  · simp [set_quota_exceeded]

/-- C2 witness: threshold behaviour evaluated on the fresh handler for
service `"flights"`, and on an arbitrary non-trivial handler for the
quota signal. -/
theorem error_threshold_trips_breaker_witness :
    is_quota_exceeded
      (increment_error (increment_error initial_handler "flights" 0) "flights" 1)
      "flights" = false ∧
    is_quota_exceeded
      (increment_error (increment_error (increment_error initial_handler "flights" 0)
        "flights" 1) "flights" 2) "flights" = true ∧
    is_quota_exceeded
      (set_quota_exceeded (increment_error initial_handler "flights" 5) "flights" 9)
      "flights" = true :=
  error_threshold_trips_breaker initial_handler
    (increment_error initial_handler "flights" 5) "flights" 0 1 2 9 rfl rfl

/-- C3: once substituting is set for a service, every sequence of
non-reset operations (errors, quota signals, successes, on any services)
keeps it set; and the success path zeroes the counter while leaving the
substituting flags of all services untouched. -/
theorem substituting_monotone_without_reset (h h2 : APIQuotaHandler) (s s2 : String)
    (ops : List QuotaOp) (hs : is_quota_exceeded h s = true) :
    is_quota_exceeded (runQuotaOps h ops) s = true ∧
    (reset_error_count h2 s2).error_count s2 = 0 ∧
    (reset_error_count h2 s2).quota_exceeded = h2.quota_exceeded := by
  refine ⟨runQuotaOps_preserves_flag s ops h hs, ?_, rfl⟩
  simp [reset_error_count]

/-- C3 witness: a flag tripped for `"flights"` survives a success, a
further error, and hotel-side operations. -/
theorem substituting_monotone_without_reset_witness :
    is_quota_exceeded
      (runQuotaOps (set_quota_exceeded initial_handler "flights" 0)
        [.record_success "flights", .record_error "flights" 1,
         .record_quota_signal "hotels" 2, .record_error "hotels" 3])
      "flights" = true ∧
    (reset_error_count initial_handler "hotels").error_count "hotels" = 0 ∧
    (reset_error_count initial_handler "hotels").quota_exceeded =
      initial_handler.quota_exceeded :=
  substituting_monotone_without_reset (set_quota_exceeded initial_handler "flights" 0)
    initial_handler "flights" "hotels"
    [.record_success "flights", .record_error "flights" 1,
     .record_quota_signal "hotels" 2, .record_error "hotels" 3] rfl

/-- C7 counterexample: `reset_all_quota_status` loops over exactly
`["flights", "hotels"]`, so a service `"trains"` that has tripped is still
substituting afterwards — refuting "after resetAll every service reports
isSubstituting == false". -/
theorem reset_all_misses_other_services_cx :
    is_quota_exceeded
      (reset_all_quota_status (set_quota_exceeded initial_handler "trains" 0))
      "trains" = true := by
  decide

/-- C7 amended: after `reset_all_quota_status`, the services `"flights"`
and `"hotels"` report a clear flag and a zero counter; every other
service's state is left unchanged. -/
theorem reset_all_resets_flights_hotels (h : APIQuotaHandler) (s : String)
    (hf : s ≠ "flights") (hh : s ≠ "hotels") :
    is_quota_exceeded (reset_all_quota_status h) "flights" = false ∧
    (reset_all_quota_status h).error_count "flights" = 0 ∧
    is_quota_exceeded (reset_all_quota_status h) "hotels" = false ∧
    (reset_all_quota_status h).error_count "hotels" = 0 ∧
    (reset_all_quota_status h).quota_exceeded s = h.quota_exceeded s ∧
    (reset_all_quota_status h).error_count s = h.error_count s ∧
    (reset_all_quota_status h).last_check s = h.last_check s := by
  simp [reset_all_quota_status, reset_quota_status, is_quota_exceeded, hf, hh]

/-- C7 witness for the amended claim: a handler with `"flights"` and
`"trains"` both tripped; after the reset, `"flights"` is clear and
`"trains"` unchanged. -/
theorem reset_all_resets_flights_hotels_witness :
    is_quota_exceeded
      (reset_all_quota_status
        (set_quota_exceeded (set_quota_exceeded initial_handler "trains" 0) "flights" 1))
      "flights" = false ∧
    (reset_all_quota_status
        (set_quota_exceeded (set_quota_exceeded initial_handler "trains" 0) "flights" 1)).error_count
      "flights" = 0 ∧
    is_quota_exceeded
      (reset_all_quota_status
        (set_quota_exceeded (set_quota_exceeded initial_handler "trains" 0) "flights" 1))
      "hotels" = false ∧
    (reset_all_quota_status
        (set_quota_exceeded (set_quota_exceeded initial_handler "trains" 0) "flights" 1)).error_count
      "hotels" = 0 ∧
    (reset_all_quota_status
        (set_quota_exceeded (set_quota_exceeded initial_handler "trains" 0) "flights" 1)).quota_exceeded
      "trains" =
      (set_quota_exceeded (set_quota_exceeded initial_handler "trains" 0) "flights" 1).quota_exceeded
        "trains" ∧
    (reset_all_quota_status
        (set_quota_exceeded (set_quota_exceeded initial_handler "trains" 0) "flights" 1)).error_count
      "trains" =
      (set_quota_exceeded (set_quota_exceeded initial_handler "trains" 0) "flights" 1).error_count
        "trains" ∧
    (reset_all_quota_status
        (set_quota_exceeded (set_quota_exceeded initial_handler "trains" 0) "flights" 1)).last_check
      "trains" =
      (set_quota_exceeded (set_quota_exceeded initial_handler "trains" 0) "flights" 1).last_check
        "trains" :=
  reset_all_resets_flights_hotels
    (set_quota_exceeded (set_quota_exceeded initial_handler "trains" 0) "flights" 1)
    "trains" (by decide) (by decide)

/-- C8: `reset_quota_status` is idempotent — a second reset of the same
service leaves the whole tracker state (flag, counter, timestamp)
identical. -/
theorem reset_quota_status_idempotent (h : APIQuotaHandler) (s : String) :
    reset_quota_status (reset_quota_status h s) s = reset_quota_status h s := by
  unfold reset_quota_status
  congr 1 <;> funext x <;> by_cases hx : x = s <;> simp [hx]

/-! ## Claim theorems: fetch fallbacks and single-leg plans -/

/-- C4: while the substituting flag is set for `"flights"` (resp.
`"hotels"`), the fetch helpers return the deterministic mock data without
ever invoking the live capability, and a whole `create_trip_plan` call
made in that state invokes neither live capability; its option lists are
the deterministic substitute data (the quota mocks for a known
destination, the route-unknown entries otherwise). -/
theorem substituting_skips_live_calls (h hh hc : APIQuotaHandler)
    (origin dest city : String) (live : Except String (List FlightData))
    (hlive hlive2 : HotelLive) (visa : Except String (Option Country)) (nf nh : Nat)
    (hf : is_quota_exceeded h "flights" = true)
    (hH : is_quota_exceeded hh "hotels" = true)
    (hcf : is_quota_exceeded hc "flights" = true)
    (hch : is_quota_exceeded hc "hotels" = true) :
    (fetch_flights_with_fallback h origin dest live nf).live_called = false ∧
    (fetch_flights_with_fallback h origin dest live nf).data =
      get_mock_flight_data origin dest ∧
    (fetch_hotels_with_fallback hh city hlive nh).live_called = false ∧
    (fetch_hotels_with_fallback hh city hlive nh).data = get_mock_hotel_data city ∧
    (create_trip_plan hc origin dest visa live hlive2 nf nh).flight_live_called = false ∧
    (create_trip_plan hc origin dest visa live hlive2 nf nh).hotel_live_called = false ∧
    (create_trip_plan hc origin dest visa live hlive2 nf nh).plan.flight_options =
      (match lookup_city (pyUpper dest) with
       | none => [route_unknown_flight]
       | some _ => get_mock_flight_data origin dest) ∧
    (create_trip_plan hc origin dest visa live hlive2 nf nh).plan.hotel_options =
      (match lookup_city (pyUpper dest) with
       | none => [route_unknown_hotel]
       | some city_info => get_mock_hotel_data city_info.city) := by
  refine ⟨?_, ?_, ?_, ?_, ?_⟩
  · simp [fetch_flights_with_fallback, hf]
  · simp [fetch_flights_with_fallback, hf]
  · simp [fetch_hotels_with_fallback, hH]
  · simp [fetch_hotels_with_fallback, hH]
  · unfold create_trip_plan
    cases hcity : lookup_city (pyUpper dest) with
    | none => simp [route_unknown_plan]
    | some city_info =>
      simp only []
      have hfr :
          fetch_flights_with_fallback hc origin dest live nf =
            ⟨hc, get_mock_flight_data origin dest, false⟩ := by
        simp [fetch_flights_with_fallback, hcf]
      have hhr :
          fetch_hotels_with_fallback hc city_info.city hlive2 nh =
            ⟨hc, get_mock_hotel_data city_info.city, false⟩ := by
        simp [fetch_hotels_with_fallback, hch]
      simp [hfr, hhr]

/-- C4 witness: handler with both services tripped, destination `"BKK"`,
a live outcome that would have returned data had it been consulted. -/
theorem substituting_skips_live_calls_witness :
    (fetch_flights_with_fallback
      (set_quota_exceeded (set_quota_exceeded initial_handler "flights" 0) "hotels" 0)
      "DEL" "BKK" (.ok []) 1).live_called = false ∧
    (fetch_flights_with_fallback
      (set_quota_exceeded (set_quota_exceeded initial_handler "flights" 0) "hotels" 0)
      "DEL" "BKK" (.ok []) 1).data = get_mock_flight_data "DEL" "BKK" ∧
    (fetch_hotels_with_fallback
      (set_quota_exceeded (set_quota_exceeded initial_handler "flights" 0) "hotels" 0)
      "Bangkok" (.ok []) 1).live_called = false ∧
    (fetch_hotels_with_fallback
      (set_quota_exceeded (set_quota_exceeded initial_handler "flights" 0) "hotels" 0)
      "Bangkok" (.ok []) 1).data = get_mock_hotel_data "Bangkok" ∧
    (create_trip_plan
      (set_quota_exceeded (set_quota_exceeded initial_handler "flights" 0) "hotels" 0)
      "DEL" "BKK" (.ok none) (.ok []) (.ok []) 1 1).flight_live_called = false ∧
    (create_trip_plan
      (set_quota_exceeded (set_quota_exceeded initial_handler "flights" 0) "hotels" 0)
      "DEL" "BKK" (.ok none) (.ok []) (.ok []) 1 1).hotel_live_called = false ∧
    (create_trip_plan
      (set_quota_exceeded (set_quota_exceeded initial_handler "flights" 0) "hotels" 0)
      "DEL" "BKK" (.ok none) (.ok []) (.ok []) 1 1).plan.flight_options =
      (match lookup_city (pyUpper "BKK") with
       | none => [route_unknown_flight]
       | some _ => get_mock_flight_data "DEL" "BKK") ∧
    (create_trip_plan
      (set_quota_exceeded (set_quota_exceeded initial_handler "flights" 0) "hotels" 0)
      "DEL" "BKK" (.ok none) (.ok []) (.ok []) 1 1).plan.hotel_options =
      (match lookup_city (pyUpper "BKK") with
       | none => [route_unknown_hotel]
       | some city_info => get_mock_hotel_data city_info.city) :=
  substituting_skips_live_calls
    (set_quota_exceeded (set_quota_exceeded initial_handler "flights" 0) "hotels" 0)
    (set_quota_exceeded (set_quota_exceeded initial_handler "flights" 0) "hotels" 0)
    (set_quota_exceeded (set_quota_exceeded initial_handler "flights" 0) "hotels" 0)
    "DEL" "BKK" "Bangkok" (.ok []) (.ok []) (.ok []) (.ok none) 1 1
    rfl rfl rfl rfl

/-- C5: for a destination airport absent from the metadata table,
`create_trip_plan` short-circuits to a plan with null visa information and
non-empty, route-unknown-tagged singleton flight and hotel lists, without
touching quota state or the live capabilities. -/
theorem unknown_destination_plan (h : APIQuotaHandler) (origin dest : String)
    (visa : Except String (Option Country)) (fl : Except String (List FlightData))
    (hl : HotelLive) (nf nh : Nat)
    (hdest : lookup_city (pyUpper dest) = none) :
    (create_trip_plan h origin dest visa fl hl nf nh).plan.visa_information = none ∧
    (create_trip_plan h origin dest visa fl hl nf nh).plan.flight_options =
      [route_unknown_flight] ∧
    (create_trip_plan h origin dest visa fl hl nf nh).plan.hotel_options =
      [route_unknown_hotel] ∧
    (create_trip_plan h origin dest visa fl hl nf nh).plan.flight_options ≠ [] ∧
    (create_trip_plan h origin dest visa fl hl nf nh).plan.hotel_options ≠ [] ∧
    route_unknown_flight.airline = "Unknown Route" ∧
    route_unknown_hotel.name = "Hotel information not available" ∧
    (create_trip_plan h origin dest visa fl hl nf nh).flight_live_called = false ∧
    (create_trip_plan h origin dest visa fl hl nf nh).hotel_live_called = false := by
  unfold create_trip_plan
  rw [hdest]
  simp [route_unknown_plan, route_unknown_flight, route_unknown_hotel]

/-- C5 witness: evaluated at the unknown code `"XYZ"`. -/
theorem unknown_destination_plan_witness :
    (create_trip_plan initial_handler "DEL" "XYZ" (.ok none) (.ok [])
      .no_location 0 0).plan.visa_information = none ∧
    (create_trip_plan initial_handler "DEL" "XYZ" (.ok none) (.ok [])
      .no_location 0 0).plan.flight_options = [route_unknown_flight] ∧
    (create_trip_plan initial_handler "DEL" "XYZ" (.ok none) (.ok [])
      .no_location 0 0).plan.hotel_options = [route_unknown_hotel] ∧
    (create_trip_plan initial_handler "DEL" "XYZ" (.ok none) (.ok [])
      .no_location 0 0).plan.flight_options ≠ [] ∧
    (create_trip_plan initial_handler "DEL" "XYZ" (.ok none) (.ok [])
      .no_location 0 0).plan.hotel_options ≠ [] ∧
    route_unknown_flight.airline = "Unknown Route" ∧
    route_unknown_hotel.name = "Hotel information not available" ∧
    (create_trip_plan initial_handler "DEL" "XYZ" (.ok none) (.ok [])
      .no_location 0 0).flight_live_called = false ∧
    (create_trip_plan initial_handler "DEL" "XYZ" (.ok none) (.ok [])
      .no_location 0 0).hotel_live_called = false :=
  unknown_destination_plan initial_handler "DEL" "XYZ" (.ok none) (.ok [])
    .no_location 0 0 (by decide)

/-- C10: on a live-call failure, the hotel path treats a lowercased
message containing `"400"`, `"exceeded"` or `"limit"` as a conclusive
quota signal — substituting is set immediately and the error counter is
untouched; the flight path does the same for `"exceeded"`/`"limit"`, but a
message containing `"400"` and no flight keyword takes the counted
`increment_error` path instead. -/
theorem quota_keyword_classification (h1 h2 h3 : APIQuotaHandler)
    (city o d : String) (e1 e2 e3 : String) (n1 n2 n3 : Nat)
    (hq1 : is_quota_exceeded h1 "hotels" = false)
    (hk1 : strContains "400" (pyLower e1) = true ∨
      strContains "exceeded" (pyLower e1) = true ∨
      strContains "limit" (pyLower e1) = true)
    (hq2 : is_quota_exceeded h2 "flights" = false)
    (hk2 : strContains "exceeded" (pyLower e2) = true ∨
      strContains "limit" (pyLower e2) = true)
    (hq3 : is_quota_exceeded h3 "flights" = false)
    (_hk3 : strContains "400" (pyLower e3) = true)
    (hk3' : is_quota_error flight_quota_keywords e3 = false) :
    (fetch_hotels_with_fallback h1 city (.error e1) n1).state.quota_exceeded
      "hotels" = true ∧
    (fetch_hotels_with_fallback h1 city (.error e1) n1).state.error_count =
      h1.error_count ∧
    (fetch_flights_with_fallback h2 o d (.error e2) n2).state.quota_exceeded
      "flights" = true ∧
    (fetch_flights_with_fallback h2 o d (.error e2) n2).state.error_count =
      h2.error_count ∧
    (fetch_flights_with_fallback h3 o d (.error e3) n3).state =
      increment_error h3 "flights" n3 := by
  have hc1 : is_quota_error hotel_quota_keywords e1 = true := by
    rcases hk1 with hx | hx | hx <;> simp [is_quota_error, hotel_quota_keywords, hx]
  have hc2 : is_quota_error flight_quota_keywords e2 = true := by
    rcases hk2 with hx | hx <;> simp [is_quota_error, flight_quota_keywords, hx]
  refine ⟨?_, ?_, ?_, ?_, ?_⟩
  · simp [fetch_hotels_with_fallback, hq1, hc1, set_quota_exceeded]
  · simp [fetch_hotels_with_fallback, hq1, hc1, set_quota_exceeded]
  · simp [fetch_flights_with_fallback, hq2, hc2, set_quota_exceeded]
  · simp [fetch_flights_with_fallback, hq2, hc2, set_quota_exceeded]
  · simp [fetch_flights_with_fallback, hq3, hk3']

/-- C10 witness: `"HTTP 400 Bad Request"` trips the hotel breaker
immediately but is merely counted on the flight side;
`"daily search limit reached"` trips the flight breaker. -/
theorem quota_keyword_classification_witness :
    (fetch_hotels_with_fallback initial_handler "Bangkok"
      (.error "HTTP 400 Bad Request") 0).state.quota_exceeded "hotels" = true ∧
    (fetch_hotels_with_fallback initial_handler "Bangkok"
      (.error "HTTP 400 Bad Request") 0).state.error_count =
      initial_handler.error_count ∧
    (fetch_flights_with_fallback initial_handler "DEL" "BKK"
      (.error "daily search limit reached") 0).state.quota_exceeded "flights" = true ∧
    (fetch_flights_with_fallback initial_handler "DEL" "BKK"
      (.error "daily search limit reached") 0).state.error_count =
      initial_handler.error_count ∧
    (fetch_flights_with_fallback initial_handler "DEL" "BKK"
      (.error "HTTP 400 Bad Request") 0).state =
      increment_error initial_handler "flights" 0 :=
  quota_keyword_classification initial_handler initial_handler initial_handler
    "Bangkok" "DEL" "BKK" "HTTP 400 Bad Request" "daily search limit reached"
    "HTTP 400 Bad Request" 0 0 0
    rfl (Or.inl (by decide)) rfl (Or.inr (by decide)) rfl (by decide) (by decide)

/-! ## Helper lemmas: itinerary assembly -/

/-- Indexing a zip of a list with the per-index image of `List.range` of
its own length: entry `i` pairs element `i` with `f i`. -/
lemma zip_range_map_get? {α β γ : Type} (gf : α → β → γ) :
    ∀ (f : Nat → β) (l : List α) (i : Nat),
      ((l.zip ((List.range l.length).map f)).map fun p => gf p.1 p.2).get? i
        = (l.get? i).map fun a => gf a (f i) := by
  intro f l
  induction l generalizing f with
  | nil => intro i; simp
  | cons a t ih =>
    intro i
    rw [List.length_cons, List.range_succ_eq_map, List.map_cons, List.map_map,
      List.zip_cons_cons, List.map_cons]
    cases i with
    | zero => simp
    | succ j => simpa using ih (f ∘ Nat.succ) j

/-- The assembled leg-plan list always has one entry per input leg. -/
lemma cfip_leg_plans_length
    (render : Itinerary → List LegPlan → List SponsorshipOffer → String)
    (itinerary : Itinerary) (user : User)
    (task_result : Nat → Except String TripPlan) :
    (create_full_itinerary_plan render itinerary user task_result).leg_plans.length
      = itinerary.legs.length := by
  unfold create_full_itinerary_plan
  by_cases hleg : itinerary.legs.isEmpty = true
  · rw [if_pos hleg, List.isEmpty_iff.mp hleg]
    rfl
  · rw [if_neg hleg]
    simp

/-- Entry `i` of the assembled leg-plan list pairs leg `i` with the
resolved result of task `i`. -/
lemma cfip_leg_plans_get?
    (render : Itinerary → List LegPlan → List SponsorshipOffer → String)
    (itinerary : Itinerary) (user : User)
    (task_result : Nat → Except String TripPlan) (i : Nat) :
    (create_full_itinerary_plan render itinerary user task_result).leg_plans.get? i
      = (itinerary.legs.get? i).map
          fun leg => LegPlan.mk leg (resolve_leg_result (task_result i)) := by
  unfold create_full_itinerary_plan
  by_cases hleg : itinerary.legs.isEmpty = true
  · rw [if_pos hleg, List.isEmpty_iff.mp hleg]
    simp
  · rw [if_neg hleg]
    simp only [List.map_map]
    exact zip_range_map_get? LegPlan.mk (resolve_leg_result ∘ task_result)
      itinerary.legs i

/-! ## Claim theorems: itinerary assembly -/

/-- C1: `create_full_itinerary_plan` returns exactly one leg-plan per
input leg, and entry `i` pairs input leg `i` with the plan resolved from
the `i`-th leg's task — assembly is by input index, independent of any
completion order of the concurrently gathered tasks. -/
theorem leg_plans_match_input_order
    (render : Itinerary → List LegPlan → List SponsorshipOffer → String)
    (itinerary : Itinerary) (user : User)
    (task_result : Nat → Except String TripPlan) (i : Nat) :
    (create_full_itinerary_plan render itinerary user task_result).leg_plans.length
      = itinerary.legs.length ∧
    (create_full_itinerary_plan render itinerary user task_result).leg_plans.get? i
      = (itinerary.legs.get? i).map
          fun leg => LegPlan.mk leg (resolve_leg_result (task_result i)) :=
  ⟨cfip_leg_plans_length render itinerary user task_result,
   cfip_leg_plans_get? render itinerary user task_result i⟩

/-- C6: injecting an exception into exactly the second of three leg tasks
still yields 3 leg-plans; the failed leg carries the error-marked
substitute plan, and the other two legs' trip plans are identical to the
uninjected run. -/
theorem single_leg_failure_isolated
    (render : Itinerary → List LegPlan → List SponsorshipOffer → String)
    (itinerary : Itinerary) (user : User) (l1 l2 l3 : Leg)
    (base : Nat → Except String TripPlan) (e : String)
    (hlegs : itinerary.legs = [l1, l2, l3]) :
    (create_full_itinerary_plan render itinerary user
        (fun i => if i = 1 then Except.error e else base i)).leg_plans.length = 3 ∧
    (create_full_itinerary_plan render itinerary user
        (fun i => if i = 1 then Except.error e else base i)).leg_plans.get? 1
      = some (LegPlan.mk l2 fallback_error_plan) ∧
    ((create_full_itinerary_plan render itinerary user
        (fun i => if i = 1 then Except.error e else base i)).leg_plans.get? 0).map
        LegPlan.trip_plan
      = ((create_full_itinerary_plan render itinerary user base).leg_plans.get? 0).map
          LegPlan.trip_plan ∧
    ((create_full_itinerary_plan render itinerary user
        (fun i => if i = 1 then Except.error e else base i)).leg_plans.get? 2).map
        LegPlan.trip_plan
      = ((create_full_itinerary_plan render itinerary user base).leg_plans.get? 2).map
          LegPlan.trip_plan := by
  refine ⟨?_, ?_, ?_, ?_⟩
  · rw [cfip_leg_plans_length, hlegs]
    rfl
  · rw [cfip_leg_plans_get?, hlegs]
    simp [resolve_leg_result]
  · rw [cfip_leg_plans_get?, cfip_leg_plans_get?, hlegs]
    simp
  · rw [cfip_leg_plans_get?, cfip_leg_plans_get?, hlegs]
    simp

/-- C6 witness: a concrete 3-leg itinerary with the failure injected into
leg 1 (0-based), evaluated against an all-successful base run. -/
theorem single_leg_failure_isolated_witness :
    (create_full_itinerary_plan (fun _ _ _ => "")
        (Itinerary.mk 1 1 "Asia Loop"
          [Leg.mk 1 1 "DEL" "BKK" "2025-12-01", Leg.mk 2 1 "BKK" "SIN" "2025-12-05",
           Leg.mk 3 1 "SIN" "HAN" "2025-12-09"])
        (User.mk 1 "a@b.c" (some "wanderer"))
        (fun i => if i = 1 then Except.error "boom"
          else (fun _ => Except.ok route_unknown_plan) i)).leg_plans.length = 3 ∧
    (create_full_itinerary_plan (fun _ _ _ => "")
        (Itinerary.mk 1 1 "Asia Loop"
          [Leg.mk 1 1 "DEL" "BKK" "2025-12-01", Leg.mk 2 1 "BKK" "SIN" "2025-12-05",
           Leg.mk 3 1 "SIN" "HAN" "2025-12-09"])
        (User.mk 1 "a@b.c" (some "wanderer"))
        (fun i => if i = 1 then Except.error "boom"
          else (fun _ => Except.ok route_unknown_plan) i)).leg_plans.get? 1
      = some (LegPlan.mk (Leg.mk 2 1 "BKK" "SIN" "2025-12-05") fallback_error_plan) ∧
    ((create_full_itinerary_plan (fun _ _ _ => "")
        (Itinerary.mk 1 1 "Asia Loop"
          [Leg.mk 1 1 "DEL" "BKK" "2025-12-01", Leg.mk 2 1 "BKK" "SIN" "2025-12-05",
           Leg.mk 3 1 "SIN" "HAN" "2025-12-09"])
        (User.mk 1 "a@b.c" (some "wanderer"))
        (fun i => if i = 1 then Except.error "boom"
          else (fun _ => Except.ok route_unknown_plan) i)).leg_plans.get? 0).map
        LegPlan.trip_plan
      = ((create_full_itinerary_plan (fun _ _ _ => "")
          (Itinerary.mk 1 1 "Asia Loop"
            [Leg.mk 1 1 "DEL" "BKK" "2025-12-01", Leg.mk 2 1 "BKK" "SIN" "2025-12-05",
             Leg.mk 3 1 "SIN" "HAN" "2025-12-09"])
          (User.mk 1 "a@b.c" (some "wanderer"))
          (fun _ => Except.ok route_unknown_plan)).leg_plans.get? 0).map
          LegPlan.trip_plan ∧
    ((create_full_itinerary_plan (fun _ _ _ => "")
        (Itinerary.mk 1 1 "Asia Loop"
          [Leg.mk 1 1 "DEL" "BKK" "2025-12-01", Leg.mk 2 1 "BKK" "SIN" "2025-12-05",
           Leg.mk 3 1 "SIN" "HAN" "2025-12-09"])
        (User.mk 1 "a@b.c" (some "wanderer"))
        (fun i => if i = 1 then Except.error "boom"
          else (fun _ => Except.ok route_unknown_plan) i)).leg_plans.get? 2).map
        LegPlan.trip_plan
      = ((create_full_itinerary_plan (fun _ _ _ => "")
          (Itinerary.mk 1 1 "Asia Loop"
            [Leg.mk 1 1 "DEL" "BKK" "2025-12-01", Leg.mk 2 1 "BKK" "SIN" "2025-12-05",
             Leg.mk 3 1 "SIN" "HAN" "2025-12-09"])
          (User.mk 1 "a@b.c" (some "wanderer"))
          (fun _ => Except.ok route_unknown_plan)).leg_plans.get? 2).map
          LegPlan.trip_plan :=
  single_leg_failure_isolated (fun _ _ _ => "")
    (Itinerary.mk 1 1 "Asia Loop"
      [Leg.mk 1 1 "DEL" "BKK" "2025-12-01", Leg.mk 2 1 "BKK" "SIN" "2025-12-05",
       Leg.mk 3 1 "SIN" "HAN" "2025-12-09"])
    (User.mk 1 "a@b.c" (some "wanderer"))
    (Leg.mk 1 1 "DEL" "BKK" "2025-12-01") (Leg.mk 2 1 "BKK" "SIN" "2025-12-05")
    (Leg.mk 3 1 "SIN" "HAN" "2025-12-09")
    (fun _ => Except.ok route_unknown_plan) "boom" rfl

/-! ## Helper lemmas: sponsorship -/

/-- The non-destination-specific part of the catalog. -/
lemma filter_generic_offers :
    AVAILABLE_OFFERS.filter (fun o => !o.destination_specific)
      = [skybags_offer, nomad_apparel_offer] := rfl

/-- Once the GoPro offer is present, every further leg leaves the offer
list unchanged (the `any` guard fires on BKK legs). -/
lemma sponsorship_step_keeps_full (leg : Leg) :
    sponsorship_leg_step [skybags_offer, nomad_apparel_offer, gopro_offer] leg
      = [skybags_offer, nomad_apparel_offer, gopro_offer] := by
  unfold sponsorship_leg_step
  by_cases hd : leg.destination_airport = "BKK"
  · rw [if_pos hd, if_pos (by decide)]
  · rw [if_neg hd]

/-- Folding any further legs over the full offer list is the identity. -/
lemma sponsorship_foldl_keeps_full :
    ∀ legs : List Leg,
      legs.foldl sponsorship_leg_step
        [skybags_offer, nomad_apparel_offer, gopro_offer]
        = [skybags_offer, nomad_apparel_offer, gopro_offer] := by
  intro legs
  induction legs with
  | nil => rfl
  | cons leg t ih =>
    rw [List.foldl_cons, sponsorship_step_keeps_full leg]
    exact ih

/-- Folding a leg list containing a BKK leg over the generic offers
appends the GoPro offer exactly once. -/
lemma sponsorship_foldl_hits_bkk :
    ∀ legs : List Leg, (∃ leg ∈ legs, leg.destination_airport = "BKK") →
      legs.foldl sponsorship_leg_step [skybags_offer, nomad_apparel_offer]
        = [skybags_offer, nomad_apparel_offer, gopro_offer] := by
  intro legs
  induction legs with
  | nil =>
    rintro ⟨leg, hm, -⟩
    cases hm
  | cons leg t ih =>
    rintro ⟨lg, hm, hd⟩
    by_cases hbkk : leg.destination_airport = "BKK"
    · have hstep :
          sponsorship_leg_step [skybags_offer, nomad_apparel_offer] leg
            = [skybags_offer, nomad_apparel_offer, gopro_offer] := by
        unfold sponsorship_leg_step
        rw [if_pos hbkk, if_neg (by decide)]
        rfl
      rw [List.foldl_cons, hstep]
      exact sponsorship_foldl_keeps_full t
    · have hstep :
          sponsorship_leg_step [skybags_offer, nomad_apparel_offer] leg
            = [skybags_offer, nomad_apparel_offer] := by
        unfold sponsorship_leg_step
        rw [if_neg hbkk]
      have ht : ∃ lg ∈ t, lg.destination_airport = "BKK" := by
        rcases List.mem_cons.mp hm with heq | hmem
        · rw [heq] at hd
          exact absurd hd hbkk
        · exact ⟨lg, hmem, hd⟩
      rw [List.foldl_cons, hstep]
      exact ih ht

/-! ## Claim theorems: sponsorship -/

/-- C9: a user with a (truthy) linked Instagram handle and an itinerary
with at least one BKK leg gets exactly the non-destination-specific
catalog offers plus the BKK-specific GoPro offer, duplicate-free; a user
without a linked handle gets no offers regardless of the itinerary. -/
theorem sponsorship_offers_rules (user1 user2 : User) (it1 it2 : Itinerary)
    (h1 : py_truthy_str user1.instagram_handle = true)
    (hBKK : ∃ leg ∈ it1.legs, leg.destination_airport = "BKK")
    (h2 : py_truthy_str user2.instagram_handle = false) :
    get_sponsorship_offers user1 it1
      = (AVAILABLE_OFFERS.filter fun o => !o.destination_specific) ++ [gopro_offer] ∧
    get_sponsorship_offers user1 it1
      = [skybags_offer, nomad_apparel_offer, gopro_offer] ∧
    (get_sponsorship_offers user1 it1).Nodup ∧
    get_sponsorship_offers user2 it2 = [] := by
  have hmain : get_sponsorship_offers user1 it1
      = [skybags_offer, nomad_apparel_offer, gopro_offer] := by
    unfold get_sponsorship_offers
    rw [if_pos h1, filter_generic_offers]
    exact sponsorship_foldl_hits_bkk it1.legs hBKK
  refine ⟨?_, hmain, ?_, ?_⟩
  · rw [hmain, filter_generic_offers]
    rfl
  · rw [hmain]
    decide
  · unfold get_sponsorship_offers
    rw [if_neg]
    rw [h2]
    exact Bool.false_ne_true

/-- C9 witness: a handle-linked user on a DEL→BKK itinerary versus a
handle-less user on the same itinerary. -/
theorem sponsorship_offers_rules_witness :
    get_sponsorship_offers (User.mk 1 "a@b.c" (some "wanderer"))
        (Itinerary.mk 1 1 "Bangkok Trip" [Leg.mk 1 1 "DEL" "BKK" "2025-12-01"])
      = (AVAILABLE_OFFERS.filter fun o => !o.destination_specific) ++ [gopro_offer] ∧
    get_sponsorship_offers (User.mk 1 "a@b.c" (some "wanderer"))
        (Itinerary.mk 1 1 "Bangkok Trip" [Leg.mk 1 1 "DEL" "BKK" "2025-12-01"])
      = [skybags_offer, nomad_apparel_offer, gopro_offer] ∧
    (get_sponsorship_offers (User.mk 1 "a@b.c" (some "wanderer"))
        (Itinerary.mk 1 1 "Bangkok Trip" [Leg.mk 1 1 "DEL" "BKK" "2025-12-01"])).Nodup ∧
    get_sponsorship_offers (User.mk 2 "d@e.f" none)
        (Itinerary.mk 1 1 "Bangkok Trip" [Leg.mk 1 1 "DEL" "BKK" "2025-12-01"]) = [] :=
  sponsorship_offers_rules (User.mk 1 "a@b.c" (some "wanderer"))
    (User.mk 2 "d@e.f" none)
    (Itinerary.mk 1 1 "Bangkok Trip" [Leg.mk 1 1 "DEL" "BKK" "2025-12-01"])
    (Itinerary.mk 1 1 "Bangkok Trip" [Leg.mk 1 1 "DEL" "BKK" "2025-12-01"])
    rfl ⟨Leg.mk 1 1 "DEL" "BKK" "2025-12-01", by decide, rfl⟩ rfl

end NomadsCompass
